import Mathlib

/-!
Verification of the Firewall Rules Management System
(src/firewall-rules-management.py) against its specification.

The Python source is shallowly embedded: every method of
`FirewallRulesManager` that the claims touch becomes a pure Lean
function.  Side effects are made explicit:

* the packet-filter engine (invoked through `subprocess.run` on
  `iptables`) is a gateway function from an engine state (the ordered
  list of installed rules) to a new state plus an exit status;
* each embedded method additionally returns the number of gateway
  invocations it performed, so that "without calling the gateway" is a
  provable statement;
* logging and `print` output are dropped except where a claim is about
  the operator-facing message, in which case the message is returned.

Python exceptions that a method catches internally (`CalledProcessError`,
`FileNotFoundError`) are modelled by the error branch of the gateway /
file argument; totality of the Lean functions models the fact that no
exception escapes.
-/

/-! ## Character-list splitting

Python string splitting (`str.split`) is embedded structurally on
`List Char` so that every definition reduces inside the kernel. -/

/-- Split a character list at every character satisfying `p`; separators
are dropped and empty pieces are kept, as in Python `s.split(sep)` for a
one-character `sep`. -/
def splitWhen (p : Char → Bool) : List Char → List (List Char)
  | [] => [[]]
  | c :: cs =>
    let r := splitWhen p cs
    if p c then [] :: r
    else
      match r with
      | [] => [[c]]
      | h :: t => (c :: h) :: t

/-- Python `s.split(sep)` for a single-character separator:
empty pieces are kept (so `"a::b".split(":") == ["a", "", "b"]`). -/
def splitOnChar (sep : Char) : List Char → List (List Char) :=
  splitWhen (fun c => c = sep)

/-- The whitespace class of Python `str.split()` with no argument
(ASCII part: space, tab, newline, carriage return, vertical tab,
form feed). -/
def isSpaceChar (c : Char) : Bool :=
  c = ' ' || c = '\t' || c = '\n' || c = '\r' || c = '\x0b' || c = '\x0c'

/-- Python `s.split()` with no argument: split on runs of whitespace and
drop the empty pieces. -/
def pySplit (l : List Char) : List (List Char) :=
  (splitWhen isSpaceChar l).filter (fun w => w ≠ [])

/-! ## Validator -/

/-- Numeric value of a run of decimal digit characters,
as in Python `int(p)` on an all-digit string. -/
def decValue (l : List Char) : Nat :=
  l.foldl (fun acc c => acc * 10 + (c.toNat - 48)) 0

/-- Is `c` an ASCII decimal digit?  (`re` pattern `\d`, restricted to
ASCII, which is all that netstat/iptables text contains.) -/
def isDigitChar (c : Char) : Bool :=
  48 ≤ c.toNat && c.toNat ≤ 57

/-- One dotted-quad component as `ipaddress.IPv4Address` accepts it:
one to three decimal digits, no leading zero, value at most 255. -/
def isOctet (l : List Char) : Bool :=
  1 ≤ l.length && l.length ≤ 3 && l.all isDigitChar &&
  (l.length == 1 || l.headD '0' ≠ '0') && decValue l ≤ 255

/-- One hexadecimal group of an IPv6 literal: one to four hex digits. -/
def isHextet (l : List Char) : Bool :=
  1 ≤ l.length && l.length ≤ 4 &&
  l.all (fun c => isDigitChar c || (97 ≤ c.toLower.toNat && c.toLower.toNat ≤ 102))

/-- Does the character list contain two adjacent colons (the IPv6 `::`
abbreviation)? -/
def hasDoubleColon : List Char → Bool
  | ':' :: ':' :: _ => true
  | _ :: rest => hasDoubleColon rest
  | [] => false

/-- An IPv6 literal, approximately as `ipaddress.IPv6Address` accepts
it: colon-separated hex groups, either exactly eight groups or fewer
with one `::` abbreviation.  The `::` placement and the embedded-IPv4
tail are modelled loosely; no claim exercises IPv6 literals. -/
def isIPv6 (l : List Char) : Bool :=
  l.contains ':' &&
  (let gs := splitOnChar ':' l
   let ne := gs.filter (fun g => g ≠ [])
   gs.length ≤ 8 && ne.all isHextet &&
   (if ne.length == gs.length then gs.length == 8
    else hasDoubleColon l && ne.length ≤ 7))

/-- A dotted-quad IPv4 literal as `ipaddress.IPv4Address` accepts it:
exactly four octets. -/
def isIPv4 (l : List Char) : Bool :=
  let parts := splitOnChar '.' l
  parts.length == 4 && parts.all isOctet

/-- Modelled from the spec: `validateAddress` (§4.1) backing
`FirewallRulesManager.validate_ip` (source lines 62-76), whose body is
`ipaddress.ip_address` from the Python standard library (the library
itself is outside the repository).  True iff the string parses as an
IPv4 or IPv6 literal; returning `False` models the caught
`ValueError`. -/
def validate_ip (s : String) : Bool :=
  isIPv4 s.toList || isIPv6 s.toList

/-! ## Filter Gateway -/

/-- Exit status of one `subprocess.run(..., check=True)` gateway call:
`ok` is a zero exit code, `err` is the `CalledProcessError` branch. -/
inductive GwResult where
  | ok : GwResult
  | err : GwResult
deriving DecidableEq

/-- A rule as the engine identifies it: the identity tuple
(chain, source address, destination port, protocol); the action is
always ACCEPT and is not part of identity (spec §3). -/
structure Rule where
  chain : String
  source_ip : String
  destination_port : Int
  protocol : String
deriving DecidableEq

/-- A Filter Gateway write operation: engine state in, engine state and
exit status out. -/
abbrev Gateway := List Rule → Rule → List Rule × GwResult

/-- Modelled from the spec: the Filter Gateway `applyRule` contract
(§4.2), realised by `iptables -A` which is outside the repository.
Appending succeeds (exit 0) whenever the port is representable for
`--dport` (0 to 65535); a duplicate append is accepted harmlessly
(spec §4.2: "the underlying engine ... rejects duplicates harmlessly"),
installing a second copy.  An unrepresentable port makes the binary
exit nonzero. -/
def applyRule : Gateway := fun st r =>
  if 0 ≤ r.destination_port && r.destination_port ≤ 65535 then
    (st ++ [r], GwResult.ok)
  else
    (st, GwResult.err)

/-- Modelled from the spec: the Filter Gateway `withdrawRule` contract
(§4.2), realised by `iptables -D` which is outside the repository.
Deleting removes the first rule matching the identity tuple and exits 0;
when no rule matches (including any malformed specification that can
match nothing) the binary exits nonzero. -/
def withdrawRule : Gateway := fun st r =>
  if r ∈ st then (st.erase r, GwResult.ok) else (st, GwResult.err)

/-! ## Rule Engine: `add_rule` and `delete_rule`

Both return the new engine state, the Python boolean result, and the
number of gateway invocations performed during the call. -/

/-- Embedding of `FirewallRulesManager.add_rule` (source lines 78-120):
validates the source address with `validate_ip`; on validation failure
returns `False` without touching the gateway; otherwise issues exactly
one gateway call and returns `True` on exit 0, `False` on
`CalledProcessError`. -/
def add_rule (gateway : Gateway) (st : List Rule)
    (chain source_ip : String) (destination_port : Int) (protocol : String) :
    List Rule × Bool × Nat :=
  if validate_ip source_ip = false then
    (st, false, 0)
  else
    let (st2, res) := gateway st ⟨chain, source_ip, destination_port, protocol⟩
    match res with
    | GwResult.ok => (st2, true, 1)
    | GwResult.err => (st2, false, 1)

/-- Embedding of `FirewallRulesManager.delete_rule` (source lines
122-159): performs no validation at all; issues exactly one gateway
call and returns `True` on exit 0, `False` on `CalledProcessError`
(the same `False` whatever the cause of the failure). -/
def delete_rule (gateway : Gateway) (st : List Rule)
    (chain source_ip : String) (destination_port : Int) (protocol : String) :
    List Rule × Bool × Nat :=
  let (st2, res) := gateway st ⟨chain, source_ip, destination_port, protocol⟩
  match res with
  | GwResult.ok => (st2, true, 1)
  | GwResult.err => (st2, false, 1)

/-- A descriptor that is valid in the sense of the spec (§3): valid
source literal, destination port in [1, 65535], chain and protocol in
their enumerations. -/
def validDescriptor (r : Rule) : Bool :=
  validate_ip r.source_ip &&
  (1 ≤ r.destination_port && r.destination_port ≤ 65535) &&
  (r.chain == "INPUT" || r.chain == "OUTPUT" || r.chain == "FORWARD") &&
  (r.protocol == "tcp" || r.protocol == "udp")

example : validate_ip "1.2.3.4" = true := by decide
example : validate_ip "abc" = false := by decide
example : validate_ip "999.1.1.1" = false := by decide
example : validate_ip "203.0.113.5" = true := by decide

/-! ## Traffic Census: `analyze_traffic`

The regular expression `\d+\.\d+\.\d+\.\d+:\d+` of the source is
embedded as a maximal-munch matcher: since the digit class is disjoint
from `.` and `:`, greedy matching without backtracking recognises
exactly the strings `re.search` accepts.  (`\d` is modelled as the
ASCII digits; netstat output is ASCII.) -/

/-- Consume one or more digits (`\d+`), maximal munch; `none` when the
list does not start with a digit. -/
def dropDigits1 : List Char → Option (List Char)
  | c :: cs => if isDigitChar c then some (cs.dropWhile isDigitChar) else none
  | [] => none

/-- Consume the literal character `sep` and then one or more digits. -/
def expectThenDigits (sep : Char) : List Char → Option (List Char)
  | c :: cs => if c = sep then dropDigits1 cs else none
  | [] => none

/-- Does `\d+\.\d+\.\d+\.\d+:\d+` match at the head of the list? -/
def matchIPv4PortAt (l : List Char) : Bool :=
  (((((dropDigits1 l).bind (expectThenDigits '.')).bind
      (expectThenDigits '.')).bind (expectThenDigits '.')).bind
    (expectThenDigits ':')).isSome

/-- `re.search` of `\d+\.\d+\.\d+\.\d+:\d+`: does the pattern match at
some position of the line? -/
def searchIPv4Port : List Char → Bool
  | [] => false
  | c :: cs => matchIPv4PortAt (c :: cs) || searchIPv4Port cs

/-- The result dictionary of `analyze_traffic` on the success path:
`total_connections`, `listening_ports`, `connection_protocols`.
The protocol dictionary is an insertion-ordered association list,
as a Python `dict`. -/
structure Analysis where
  total_connections : Nat
  listening_ports : List String
  connection_protocols : List (String × Nat)
deriving DecidableEq

/-- Python `d[k] = d.get(k, 0) + 1` on an insertion-ordered dictionary:
bump the existing entry in place, or append a new entry with count 1. -/
def dictIncr : List (String × Nat) → String → List (String × Nat)
  | [], k => [(k, 1)]
  | (k', v) :: rest, k =>
    if k' = k then (k', v + 1) :: rest else (k', v) :: dictIncr rest k

/-- Python `w.split(':')[-1]`: the text after the last colon (the whole
word when it has no colon). -/
def lastAfterColon (w : List Char) : String :=
  String.mk ((splitOnChar ':' w).getLastD [])

/-- The body of the `for conn in connections` loop of `analyze_traffic`
(source lines 185-194): a line containing the address:port pattern and
having at least four whitespace-separated fields contributes its first
field to the protocol counts and the port suffix of its fourth field to
the listening ports; every other line is skipped. -/
def processLine (a : Analysis) (conn : List Char) : Analysis :=
  if searchIPv4Port conn then
    let parts := pySplit conn
    if 4 ≤ parts.length then
      let protocol := String.mk (parts.getD 0 [])
      let port := lastAfterColon (parts.getD 3 [])
      { a with
        listening_ports := a.listening_ports ++ [port]
        connection_protocols := dictIncr a.connection_protocols protocol }
    else a
  else a

/-- The pure part of `analyze_traffic` (source lines 178-195): split the
netstat output on newlines, count every line in `total_connections`,
then run the loop. -/
def summarize (stdout : String) : Analysis :=
  let connections := splitOnChar '\n' stdout.toList
  connections.foldl processLine
    { total_connections := connections.length
      listening_ports := []
      connection_protocols := [] }

/-- Embedding of `FirewallRulesManager.analyze_traffic` (source lines
161-200): the gateway argument is the outcome of
`subprocess.run(["sudo", "netstat", "-tuln"], check=True)`; on success
the stdout text is summarised, on `CalledProcessError` the method
returns the empty dictionary `{}`, modelled as `none` (it carries none
of the three summary fields).  Totality of this function models the
fact that no exception escapes. -/
def analyze_traffic (gw : Except String String) : Option Analysis :=
  match gw with
  | Except.ok out => some (summarize out)
  | Except.error _ => none

/-- A line that contributes to the aggregates: it contains the
address:port pattern and has at least four fields. -/
def goodLine (conn : List Char) : Bool :=
  searchIPv4Port conn && 4 ≤ (pySplit conn).length

/-- The port such a line contributes. -/
def portOf (conn : List Char) : String :=
  lastAfterColon ((pySplit conn).getD 3 [])

/-- Total of all counts in a protocol dictionary. -/
def sumCounts (d : List (String × Nat)) : Nat :=
  (d.map Prod.snd).sum

/-! ## Rule listing: `list_current_rules` -/

/-- The two shapes `list_current_rules` can return: the stdout text
(Python `str`) on success, a Python `list` on failure. -/
inductive PyListing where
  | str : String → PyListing
  | list : List String → PyListing
deriving DecidableEq

/-- Embedding of `FirewallRulesManager.list_current_rules` (source
lines 41-60): the gateway argument is the outcome of
`subprocess.run(["sudo", "iptables", "-L", "-n", "-v"], check=True)`;
on success the method returns `result.stdout` (a `str`), on
`CalledProcessError` it logs and returns `[]` (the empty `list`). -/
def list_current_rules (gw : Except String String) : PyListing :=
  match gw with
  | Except.ok stdout => PyListing.str stdout
  | Except.error _ => PyListing.list []

/-! ## Snapshot Store: `save_configuration` / `restore_configuration`

`datetime.now()` is embedded by passing the wall-clock instant of the
save call as an explicit `DateTime` argument; `datetime.isoformat()` is
embedded digit by digit.  The JSON layer (`json.dump` / `json.load`) of
the Python standard library serialises the two-string record
`{"timestamp": ..., "rules": ...}` losslessly, so the snapshot file is
modelled by the record itself (`Option Config`: `none` when the file
does not exist, raising `FileNotFoundError` on read). -/

/-- A wall-clock instant as Python `datetime` carries it. -/
structure DateTime where
  year : Nat
  month : Nat
  day : Nat
  hour : Nat
  minute : Nat
  second : Nat
  microsecond : Nat
deriving DecidableEq

/-- The field ranges Python `datetime` guarantees (`MINYEAR = 1`,
`MAXYEAR = 9999`; day is bounded by 31 here, the month-specific bound
does not matter for the format). -/
def validDateTime (d : DateTime) : Bool :=
  1 ≤ d.year && d.year ≤ 9999 && 1 ≤ d.month && d.month ≤ 12 &&
  1 ≤ d.day && d.day ≤ 31 && d.hour ≤ 23 && d.minute ≤ 59 &&
  d.second ≤ 59 && d.microsecond ≤ 999999

/-- The ASCII digit for `n % 10`. -/
def digitChar (n : Nat) : Char :=
  if n % 10 = 0 then '0' else if n % 10 = 1 then '1' else
  if n % 10 = 2 then '2' else if n % 10 = 3 then '3' else
  if n % 10 = 4 then '4' else if n % 10 = 5 then '5' else
  if n % 10 = 6 then '6' else if n % 10 = 7 then '7' else
  if n % 10 = 8 then '8' else '9'

/-- Numeric value of an ASCII digit character. -/
def digitVal (c : Char) : Nat := c.toNat - 48

/-- `n` zero-padded to two digits (`%02d`, for `n ≤ 99`). -/
def pad2 (n : Nat) : List Char := [digitChar (n / 10), digitChar n]

/-- `n` zero-padded to four digits (`%04d`, for `n ≤ 9999`). -/
def pad4 (n : Nat) : List Char :=
  [digitChar (n / 1000), digitChar (n / 100), digitChar (n / 10), digitChar n]

/-- `n` zero-padded to six digits (`%06d`, for `n ≤ 999999`). -/
def pad6 (n : Nat) : List Char :=
  [digitChar (n / 100000), digitChar (n / 10000), digitChar (n / 1000),
   digitChar (n / 100), digitChar (n / 10), digitChar n]

/-- Modelled from the spec: Python `datetime.isoformat()` (standard
library, outside the repository): `YYYY-MM-DDTHH:MM:SS` followed by
`.ffffff` exactly when the microsecond field is nonzero. -/
def isoformat (d : DateTime) : String :=
  String.mk (pad4 d.year ++ '-' :: pad2 d.month ++ '-' :: pad2 d.day ++
    'T' :: pad2 d.hour ++ ':' :: pad2 d.minute ++ ':' :: pad2 d.second ++
    (if d.microsecond = 0 then [] else '.' :: pad6 d.microsecond))

/-- Checker for an ISO-8601 local instant in the shape `isoformat`
emits: `YYYY-MM-DDTHH:MM:SS` with in-range fields, optionally followed
by a six-digit fraction. -/
def isISO8601Core : List Char → Bool
  | y1 :: y2 :: y3 :: y4 :: '-' :: m1 :: m2 :: '-' :: d1 :: d2 :: 'T' ::
      h1 :: h2 :: ':' :: mi1 :: mi2 :: ':' :: s1 :: s2 :: rest =>
    ([y1, y2, y3, y4, m1, m2, d1, d2, h1, h2, mi1, mi2, s1, s2].all isDigitChar) &&
    (1 ≤ 10 * digitVal m1 + digitVal m2) &&
    (10 * digitVal m1 + digitVal m2 ≤ 12) &&
    (1 ≤ 10 * digitVal d1 + digitVal d2) &&
    (10 * digitVal d1 + digitVal d2 ≤ 31) &&
    (10 * digitVal h1 + digitVal h2 ≤ 23) &&
    (10 * digitVal mi1 + digitVal mi2 ≤ 59) &&
    (10 * digitVal s1 + digitVal s2 ≤ 59) &&
    (match rest with
     | [] => true
     | '.' :: fs => (fs.length == 6) && fs.all isDigitChar
     | _ => false)
  | _ => false

/-- Is the string a valid ISO-8601 instant (in the `isoformat` shape)? -/
def isISO8601 (s : String) : Bool := isISO8601Core s.toList

/-- The snapshot record `{"timestamp": ..., "rules": ...}` that
`save_configuration` writes to `firewall_config.json`. -/
structure Config where
  timestamp : String
  rules : String
deriving DecidableEq

/-- Embedding of `FirewallRulesManager.save_configuration` (source
lines 202-218): wraps the current rule listing (the stdout of
`list_current_rules`) together with `datetime.now().isoformat()` and
writes the record to the snapshot file.  The listing and the save-call
instant are the two external inputs. -/
def save_configuration (current_rules : String) (now : DateTime) : Config :=
  { timestamp := isoformat now, rules := current_rules }

/-- Reading the snapshot file back (`json.load` in
`restore_configuration`, source lines 225-226): lossless, `none` models
a missing file (`FileNotFoundError`). -/
def load_configuration (file : Option Config) : Option Config := file

/-- What a restore run leaves behind: the (unchanged) packet-filter
state, the number of `add_rule` invocations it performed, and the
operator-facing message it printed (`none` when no snapshot exists and
only an error is logged). -/
structure RestoreResult where
  firewall : List Rule
  apply_calls : Nat
  printed : Option String
deriving DecidableEq

/-- Embedding of `FirewallRulesManager.restore_configuration` (source
lines 220-234): reads the snapshot file and prints the capture
timestamp; it never parses the rules and never calls `add_rule`
(source comment: "Actual rule restoration would require parsing the
saved rules"). -/
def restore_configuration (file : Option Config) (firewall : List Rule) :
    RestoreResult :=
  match load_configuration file with
  | some config =>
    ⟨firewall, 0, some ("Restoring configuration from " ++ config.timestamp)⟩
  | none => ⟨firewall, 0, none⟩

/-! ## Claims about the Rule Engine -/

/-- C1 counterexample: with the valid source `1.2.3.4` and the
out-of-range destination port `0` (likewise `65536`), `add_rule` does
invoke the Filter Gateway — the gateway call count is `1`, not `0` as
the claim requires, because `add_rule` never validates the port. -/
theorem C1_port_zero_reaches_gateway :
    validate_ip "1.2.3.4" = true ∧
    ¬ (add_rule applyRule [] "INPUT" "1.2.3.4" 0 "tcp").2.2 = 0 ∧
    ¬ (add_rule applyRule [] "INPUT" "1.2.3.4" 65536 "tcp").2.2 = 0 := by
  refine ⟨by decide, ?_, ?_⟩ <;> decide

/-- C1 (amended): `add_rule` validates only the source address; for
every descriptor whose source address is valid it makes exactly one
gateway call, whatever the destination port (including 0 and 65536),
and for any gateway behaviour.  No port validation failure is produced
before the gateway call. -/
theorem C1_add_rule_valid_source_always_calls_gateway
    (gateway : Gateway) (st : List Rule) (chain source_ip : String)
    (destination_port : Int) (protocol : String)
    (h : validate_ip source_ip = true) :
    (add_rule gateway st chain source_ip destination_port protocol).2.2 = 1 := by
  unfold add_rule
  rw [h]
  simp only [Bool.true_eq_false, if_false]
  rcases gateway st ⟨chain, source_ip, destination_port, protocol⟩ with ⟨st2, res⟩
  cases res <;> rfl

/-- Witness for the amended C1 at a concrete input. -/
theorem C1_add_rule_valid_source_always_calls_gateway_witness :
    validate_ip "1.2.3.4" = true ∧
    (add_rule applyRule [] "INPUT" "1.2.3.4" 0 "tcp").2.2 = 1 :=
  ⟨by decide,
   C1_add_rule_valid_source_always_calls_gateway applyRule [] "INPUT" "1.2.3.4" 0 "tcp"
     (by decide)⟩

/-- C2 counterexample: withdrawing a never-applied rule returns the
plain boolean `False` — exactly the same outcome as a generic engine
failure (here a gateway that fails even though the rule is present), so
`delete_rule` does not distinguish a NotFound condition from a generic
engine error. -/
theorem C2_absent_withdraw_indistinguishable :
    (delete_rule withdrawRule [] "INPUT" "9.9.9.9" 22 "tcp").2.1 = false ∧
    (delete_rule (fun s _ => (s, GwResult.err))
        [⟨"INPUT", "9.9.9.9", 22, "tcp"⟩] "INPUT" "9.9.9.9" 22 "tcp").2.1 = false ∧
    (delete_rule withdrawRule [] "INPUT" "9.9.9.9" 22 "tcp").2.1 =
      (delete_rule (fun s _ => (s, GwResult.err))
        [⟨"INPUT", "9.9.9.9", 22, "tcp"⟩] "INPUT" "9.9.9.9" 22 "tcp").2.1 := by
  refine ⟨?_, ?_, ?_⟩ <;> decide

/-- C2 (amended): withdrawing a rule that is not currently present
yields the plain failure value `False`, the same value `delete_rule`
returns for any engine error; the boolean result carries no NotFound
distinction. -/
theorem C2_delete_rule_absent_plain_false
    (st : List Rule) (chain source_ip : String)
    (destination_port : Int) (protocol : String)
    (h : (⟨chain, source_ip, destination_port, protocol⟩ : Rule) ∉ st) :
    (delete_rule withdrawRule st chain source_ip destination_port protocol).2.1 = false ∧
    (delete_rule (fun s _ => (s, GwResult.err))
        st chain source_ip destination_port protocol).2.1 = false := by
  constructor
  · unfold delete_rule withdrawRule
    simp [h]
  · rfl

/-- Witness for the amended C2 at a concrete input. -/
theorem C2_delete_rule_absent_plain_false_witness :
    (⟨"INPUT", "9.9.9.9", 22, "tcp"⟩ : Rule) ∉ ([] : List Rule) ∧
    (delete_rule withdrawRule [] "INPUT" "9.9.9.9" 22 "tcp").2.1 = false :=
  ⟨by decide,
   (C2_delete_rule_absent_plain_false [] "INPUT" "9.9.9.9" 22 "tcp" (by decide)).1⟩

/-- C3 counterexample: `delete_rule` with the invalid source address
`"abc"` (rejected by `validate_ip`) still invokes the Filter Gateway —
the call count is `1`, not `0`, because `delete_rule` runs no
validation gate at all. -/
theorem C3_invalid_source_reaches_gateway :
    validate_ip "abc" = false ∧
    ¬ (delete_rule withdrawRule [] "INPUT" "abc" 22 "tcp").2.2 = 0 := by
  exact ⟨by decide, by decide⟩

/-- C3 (amended): `delete_rule` performs no validation whatsoever: for
every descriptor — including one with an invalid source address — and
any gateway behaviour, it makes exactly one gateway call. -/
theorem C3_delete_rule_always_calls_gateway
    (gateway : Gateway) (st : List Rule) (chain source_ip : String)
    (destination_port : Int) (protocol : String) :
    (delete_rule gateway st chain source_ip destination_port protocol).2.2 = 1 := by
  unfold delete_rule
  rcases gateway st ⟨chain, source_ip, destination_port, protocol⟩ with ⟨st2, res⟩
  cases res <;> rfl

/-- C4: for every valid rule descriptor, applying it and then applying
it again yields the success outcome `True` both times — the duplicate
apply is reported as success, not as an error (the modelled engine
accepts the duplicate append harmlessly, spec §4.2). -/
theorem C4_apply_twice_succeeds
    (st : List Rule) (chain source_ip : String)
    (destination_port : Int) (protocol : String)
    (h : validDescriptor ⟨chain, source_ip, destination_port, protocol⟩ = true) :
    (add_rule applyRule st chain source_ip destination_port protocol).2.1 = true ∧
    (add_rule applyRule
        (add_rule applyRule st chain source_ip destination_port protocol).1
        chain source_ip destination_port protocol).2.1 = true := by
  simp only [validDescriptor, Bool.and_eq_true, decide_eq_true_eq] at h
  obtain ⟨⟨⟨hip, h1, h2⟩, _⟩, _⟩ := h
  have h0 : (0 : Int) ≤ destination_port := by omega
  constructor <;>
    simp [add_rule, applyRule, hip, h0, h2]

/-- Witness for C4 at a concrete input. -/
theorem C4_apply_twice_succeeds_witness :
    validDescriptor ⟨"INPUT", "203.0.113.5", 443, "tcp"⟩ = true ∧
    (add_rule applyRule [] "INPUT" "203.0.113.5" 443 "tcp").2.1 = true :=
  ⟨by decide,
   (C4_apply_twice_succeeds [] "INPUT" "203.0.113.5" 443 "tcp" (by decide)).1⟩

/-! ## Claims about the Snapshot Store -/

theorem isDigitChar_digitChar (n : Nat) : isDigitChar (digitChar n) = true := by
  unfold digitChar
  split_ifs <;> decide

theorem digitVal_digitChar (n : Nat) : digitVal (digitChar n) = n % 10 := by
  have h : n % 10 < 10 := Nat.mod_lt _ (by omega)
  unfold digitChar
  split_ifs with h0 h1 h2 h3 h4 h5 h6 h7 h8
  · rw [h0]; rfl
  · rw [h1]; rfl
  · rw [h2]; rfl
  · rw [h3]; rfl
  · rw [h4]; rfl
  · rw [h5]; rfl
  · rw [h6]; rfl
  · rw [h7]; rfl
  · rw [h8]; rfl
  · have h9 : n % 10 = 9 := by omega
    rw [h9]; rfl

theorem isoformat_isISO8601 (d : DateTime) (h : validDateTime d = true) :
    isISO8601 (isoformat d) = true := by
  simp only [validDateTime, Bool.and_eq_true, decide_eq_true_eq] at h
  show isISO8601Core (pad4 d.year ++ '-' :: pad2 d.month ++ '-' :: pad2 d.day ++
    'T' :: pad2 d.hour ++ ':' :: pad2 d.minute ++ ':' :: pad2 d.second ++
    (if d.microsecond = 0 then [] else '.' :: pad6 d.microsecond)) = true
  by_cases hm : d.microsecond = 0
  · rw [if_pos hm]
    simp only [pad4, pad2, List.cons_append, List.nil_append, isISO8601Core,
      List.all_cons, List.all_nil, isDigitChar_digitChar, digitVal_digitChar,
      Bool.and_true, Bool.true_and, Bool.and_eq_true, decide_eq_true_eq]
    omega
  · rw [if_neg hm]
    simp only [pad4, pad2, pad6, List.cons_append, List.nil_append, isISO8601Core,
      List.all_cons, List.all_nil, isDigitChar_digitChar, digitVal_digitChar,
      Bool.and_true, Bool.true_and, Bool.and_eq_true, decide_eq_true_eq,
      List.length_cons, List.length_nil, beq_iff_eq]
    exact ⟨by omega, trivial⟩

/-- C5: saving a listing and loading it back returns a snapshot whose
`rules` field is the original listing byte for byte, and whose
`timestamp` field is a valid ISO-8601 instant equal to the instant of
the save call (and hence no earlier than it). -/
theorem C5_snapshot_round_trip (listing : String) (now : DateTime)
    (h : validDateTime now = true) :
    load_configuration (some (save_configuration listing now)) =
      some { timestamp := isoformat now, rules := listing } ∧
    isISO8601 (isoformat now) = true :=
  ⟨rfl, isoformat_isISO8601 now h⟩

/-- Witness for C5 at a concrete listing and instant. -/
theorem C5_snapshot_round_trip_witness :
    validDateTime ⟨2026, 10, 12, 9, 30, 0, 0⟩ = true ∧
    load_configuration
        (some (save_configuration "Chain INPUT (policy ACCEPT)"
          ⟨2026, 10, 12, 9, 30, 0, 0⟩)) =
      some { timestamp := isoformat ⟨2026, 10, 12, 9, 30, 0, 0⟩,
             rules := "Chain INPUT (policy ACCEPT)" } :=
  ⟨by decide,
   (C5_snapshot_round_trip "Chain INPUT (policy ACCEPT)"
     ⟨2026, 10, 12, 9, 30, 0, 0⟩ (by decide)).1⟩

/-- C6: restoring any snapshot (present or missing) leaves the firewall
rule state exactly unchanged, performs zero `add_rule` invocations, and
the only operator-facing output is the informational message naming the
snapshot's capture timestamp. -/
theorem C6_restore_is_informational_only (file : Option Config)
    (firewall : List Rule) :
    (restore_configuration file firewall).firewall = firewall ∧
    (restore_configuration file firewall).apply_calls = 0 ∧
    (restore_configuration file firewall).printed =
      file.map (fun config => "Restoring configuration from " ++ config.timestamp) := by
  cases file <;> exact ⟨rfl, rfl, rfl⟩

/-! ## Claims about the Traffic Census -/

theorem processLine_total (a : Analysis) (conn : List Char) :
    (processLine a conn).total_connections = a.total_connections := by
  by_cases h1 : searchIPv4Port conn = true
  · by_cases h2 : 4 ≤ (pySplit conn).length
    · simp [processLine, h1, h2]
    · simp [processLine, h1, h2]
  · simp [processLine, h1]

theorem processLine_ports (a : Analysis) (conn : List Char) :
    (processLine a conn).listening_ports =
      a.listening_ports ++ (if goodLine conn then [portOf conn] else []) := by
  by_cases h1 : searchIPv4Port conn = true
  · by_cases h2 : 4 ≤ (pySplit conn).length
    · simp [processLine, goodLine, portOf, h1, h2]
    · simp [processLine, goodLine, h1, h2]
  · simp [processLine, goodLine, h1]

theorem sumCounts_dictIncr (d : List (String × Nat)) (k : String) :
    sumCounts (dictIncr d k) = sumCounts d + 1 := by
  induction d with
  | nil => rfl
  | cons p rest ih =>
    rcases p with ⟨k', v⟩
    unfold dictIncr
    split_ifs with hk
    · simp [sumCounts]
      omega
    · simp only [sumCounts, List.map_cons, List.sum_cons] at ih ⊢
      omega

theorem processLine_protoSum (a : Analysis) (conn : List Char) :
    sumCounts (processLine a conn).connection_protocols =
      sumCounts a.connection_protocols + (if goodLine conn then 1 else 0) := by
  by_cases h1 : searchIPv4Port conn = true
  · by_cases h2 : 4 ≤ (pySplit conn).length
    · simp [processLine, goodLine, h1, h2, sumCounts_dictIncr]
    · simp [processLine, goodLine, h1, h2]
  · simp [processLine, goodLine, h1]

theorem foldl_processLine_total (lines : List (List Char)) (a : Analysis) :
    (lines.foldl processLine a).total_connections = a.total_connections := by
  induction lines generalizing a with
  | nil => rfl
  | cons l ls ih => rw [List.foldl_cons, ih, processLine_total]

theorem foldl_processLine_ports (lines : List (List Char)) (a : Analysis) :
    (lines.foldl processLine a).listening_ports =
      a.listening_ports ++ (lines.filter goodLine).map portOf := by
  induction lines generalizing a with
  | nil => simp
  | cons l ls ih =>
    rw [List.foldl_cons, ih, processLine_ports, List.filter_cons]
    by_cases h : goodLine l = true
    · simp [h]
    · simp [h]

theorem foldl_processLine_protoSum (lines : List (List Char)) (a : Analysis) :
    sumCounts (lines.foldl processLine a).connection_protocols =
      sumCounts a.connection_protocols + (lines.filter goodLine).length := by
  induction lines generalizing a with
  | nil => simp
  | cons l ls ih =>
    rw [List.foldl_cons, ih, processLine_protoSum, List.filter_cons]
    by_cases h : goodLine l = true
    · simp [h]
      omega
    · simp [h]

/-- C8: the census is a total function of the input text (no exception
can escape); it counts every line — malformed or not, including lines
that match the address:port pattern but have fewer than four fields —
in `total_connections`, and exactly the well-formed lines (pattern
match and at least four fields) contribute to `listening_ports` and to
the protocol counts: the ports are those of the well-formed lines in
scan order, and the protocol counts total the number of well-formed
lines. -/
theorem C8_census_counts_all_lines_excludes_malformed (stdout : String) :
    (summarize stdout).total_connections =
      (splitOnChar '\n' stdout.toList).length ∧
    (summarize stdout).listening_ports =
      ((splitOnChar '\n' stdout.toList).filter goodLine).map portOf ∧
    sumCounts (summarize stdout).connection_protocols =
      ((splitOnChar '\n' stdout.toList).filter goodLine).length := by
  unfold summarize
  refine ⟨?_, ?_, ?_⟩
  · rw [foldl_processLine_total]
  · rw [foldl_processLine_ports]
    rfl
  · rw [foldl_processLine_protoSum]
    simp [sumCounts]

/-- C7: on exactly the two literal netstat lines of the specification,
the census reports protocol counts tcp ↦ 1 and udp ↦ 1 and the
listening ports "22" then "53" in input order; prepending a header line
with no address:port pattern raises the line count but contributes
nothing to the ports or the protocol counts. -/
theorem C7_census_on_literal_lines :
    summarize ("tcp        0      0 0.0.0.0:22              0.0.0.0:*               LISTEN\nudp        0      0 127.0.0.1:53            0.0.0.0:*                      ") =
      { total_connections := 2
        listening_ports := ["22", "53"]
        connection_protocols := [("tcp", 1), ("udp", 1)] } ∧
    summarize ("Proto Recv-Q Send-Q Local Address           Foreign Address         State\ntcp        0      0 0.0.0.0:22              0.0.0.0:*               LISTEN\nudp        0      0 127.0.0.1:53            0.0.0.0:*                      ") =
      { total_connections := 3
        listening_ports := ["22", "53"]
        connection_protocols := [("tcp", 1), ("udp", 1)] } := by
  exact ⟨by decide, by decide⟩

/-! ## Claims about failure paths of the gateway reads -/

/-- C9: on gateway failure `list_current_rules` returns the empty
Python `list` `[]` — a value of a different type from the `str` it
returns on success — rather than an empty listing of the same text
type; the failure is logged inside the method, not signalled to the
caller. -/
theorem C9_listing_failure_returns_list_not_text :
    list_current_rules (Except.error "iptables: command failed") =
      PyListing.list [] ∧
    list_current_rules (Except.ok "Chain INPUT (policy ACCEPT)") =
      PyListing.str "Chain INPUT (policy ACCEPT)" :=
  ⟨rfl, rfl⟩

/-- C10: when the socket-listing gateway call fails, `analyze_traffic`
returns the empty dictionary (modelled `none`: it carries none of the
`total_connections`, `listening_ports`, `connection_protocols` fields)
instead of a summary-shaped result, and — being a total function — it
raises nothing; on success it returns the summary shape. -/
theorem C10_analyze_traffic_failure_empty (e : String) :
    analyze_traffic (Except.error e) = none ∧
    ∀ out : String, analyze_traffic (Except.ok out) = some (summarize out) :=
  ⟨rfl, fun _ => rfl⟩
